import Mathlib

/-!
Shallow embedding of the Kawari world-server session layer
(`src/world/connection.rs`, `src/common/gamedata.rs`) and proofs about it.

Machine integers are carried as `Nat`/`Int` with explicit `% 2^w` where the
source relies on wrapping; Rust panics (`expect`, `unwrap`, `assert!`) are
carried as `Except String`; network sends are carried as the ordered list of
segments an operation emits.  Repository code outside the provided sources
(key generation, inventory internals, character records) is carried as opaque
parameters, so the theorems hold for any implementation of those parts.
-/

namespace Kawari

/-- Low 16 bits of an `i32` value, exactly what Rust's `as u16` cast yields
(`Int.emod` is non-negative for a positive modulus). -/
def u16_of_i32 (v : Int) : Nat := (v % 65536).toNat

/-- Low 8 bits of an `i32` value (`as u8`). -/
def u8_of_i32 (v : Int) : Nat := (v % 256).toNat

/-- Bitwise NOT of a `u8` value (Rust `!x`): every bit flipped, i.e. `255 - x`. -/
def not_u8 (x : Nat) : Nat := 255 - x % 256

/-- Bitwise NOT of a `u32` value (Rust `!x`). -/
def not_u32 (x : Nat) : Nat := 4294967295 - x % 4294967296

/-- `GameData::calculate_target` (src/common/gamedata.rs).  Parameterised on
`unix`, the Eorzean-scaled time the source computes as
`(timestamp_secs() as f32 / ((60.0 * 24.0) / 70.0)) as u64` before the integer
pipeline embedded here; `u32` arithmetic wraps modulo `2 ^ 32`. -/
def calculate_target (unix : Nat) : Int :=
  let bell := unix / 175
  let increment := (bell + 8 - bell % 8) % 4294967296 % 24
  let total_days := unix / 4200 % 4294967296
  let calc_base := (total_days * 100 % 4294967296 + increment) % 4294967296
  let step1 := (calc_base <<< 11) % 4294967296 ^^^ calc_base
  let step2 := step1 >>> 8 ^^^ step1
  Int.ofNat (step2 % 100)

/-- `GameData::get_weather_rate` (src/common/gamedata.rs), applied to the
`(weather, rate)` pairs read from the weather-rate sheet row: take the first
entry whose rate the target is strictly below.  Note the source does not
accumulate the rates. -/
def get_weather_rate (weather_and_rates : List (Int × Int)) (unix : Nat) : Option Int :=
  let target := calculate_target unix
  (((weather_and_rates.filter fun wr => target < wr.2).take 1).head?).map fun wr => wr.1

/-- Helper for `cumulative_weather_choice`: walk the entries keeping a running
total of the rates. -/
def cumulative_weather_pick (target : Int) (acc : Int) : List (Int × Int) → Option Int
  | [] => none
  | wr :: rest =>
    if target < acc + wr.2 then some wr.1 else cumulative_weather_pick target (acc + wr.2) rest

/-- Weather selection as the specification words it: the first weather entry
whose cumulative probability threshold exceeds the window value.  Written from
the spec's words, to be compared with `get_weather_rate` above. -/
def cumulative_weather_choice (weather_and_rates : List (Int × Int)) (target : Int) : Option Int :=
  cumulative_weather_pick target 0 weather_and_rates

/-- Spatial position.  The session layer only constructs, copies and defaults
position values (never does arithmetic on them), so the `f32` coordinates are
carried as integers. -/
structure Position where
  x : Int
  y : Int
  z : Int
  deriving DecidableEq

instance : Inhabited Position := ⟨⟨0, 0, 0⟩⟩

/-- `common::ObjectTypeId`. -/
structure ObjectTypeId where
  object_id : Nat
  object_type : Nat
  deriving DecidableEq

instance : Inhabited ObjectTypeId := ⟨⟨0, 0⟩⟩

/-- An inventory item (`inventory::Item`): the fields the session layer reads. -/
structure Item where
  id : Nat
  quantity : Nat
  condition : Nat
  glamour_catalog_id : Nat
  deriving DecidableEq

/-- `gamedata::ItemInfo`: the record produced by an Item-sheet lookup. -/
structure ItemInfo where
  name : String
  id : Nat
  price_mid : Nat
  price_low : Nat
  equip_category : Nat
  primary_model_id : Nat
  stack_size : Nat
  item_level : Nat
  deriving DecidableEq

/-- `gamedata::ItemInfoQuery`.  Only the by-id form is exercised by the session
paths embedded here. -/
inductive ItemInfoQuery
  | ById (id : Nat)
  deriving DecidableEq

/-- One storage container: its ordered slots.  `max_slots` is the slot count and
`get_slot i` is the i-th slot, matching the iteration in `send_inventory`. -/
structure Container where
  slots : List Item
  deriving DecidableEq

/-- Modelled from the spec: `Storage::num_items` (inventory module, outside the
provided sources) — the number of occupied slots, reported in ContainerInfo. -/
def Container.num_items (c : Container) : Nat :=
  (c.slots.filter fun it => it.quantity != 0).length

/-- Container-type tag (`inventory::ContainerType`): the variants the embedded
paths distinguish, everything else as `Bag n`. -/
inductive ContainerType
  | Currency
  | Crystals
  | Mail
  | Unk2
  | ArmoryWaist
  | Bag (n : Nat)
  deriving DecidableEq

/-- The inventory, as the ordered (container type, container) sequence that
`(&Inventory).into_iter()` yields in `send_inventory`. -/
structure Inventory where
  containers : List (ContainerType × Container)
  deriving DecidableEq

/-- `UnlockData` (src/world/connection.rs): the unlock bitmaps the embedded
paths touch; each is a byte array addressed by (bit value, byte index). -/
structure UnlockData where
  unlocks : List Nat
  aetherytes : List Nat
  completed_quests : List Nat
  deriving DecidableEq

/-- The server-side shop buyback shadow copy (`BuyBackList`); its contents are
opaque to the embedded paths, which only clear or replace it. -/
abbrev BuyBackList := List Nat

/-- `PlayerData` (src/world/connection.rs).  Fixed-size arrays are carried as
lists; the `f32` rotation as an integer (only copied, never computed with). -/
structure PlayerData where
  actor_id : Nat
  content_id : Nat
  account_id : Nat
  classjob_id : Nat
  classjob_levels : List Int
  classjob_exp : List Nat
  curr_hp : Nat
  max_hp : Nat
  curr_mp : Nat
  max_mp : Nat
  position : Position
  rotation : Int
  zone_id : Nat
  inventory : Inventory
  gm_invisible : Bool
  item_sequence : Nat
  shop_sequence : Nat
  target_actorid : ObjectTypeId
  buyback_list : BuyBackList
  unlocks : UnlockData
  saw_inn_wakeup : Bool
  deriving DecidableEq

/-- One status effect as carried in the StatusEffectList payload. -/
structure StatusEffect where
  effect_id : Nat
  param : Nat
  duration : Int
  source_actor_id : Nat
  deriving DecidableEq

instance : Inhabited StatusEffect := ⟨⟨0, 0, 0, 0⟩⟩

/-- The session's status-effect store: the live list plus the dirty flag gating
`process_effects_list`. -/
structure StatusEffects where
  status_effects : List StatusEffect
  dirty : Bool
  deriving DecidableEq

/-- Scrambling key material (`ScramblerKeys`, packet module, outside the
provided sources): opaque, represented by a single value. -/
abbrev ScramblerKeys := Nat

/-- `ObsfucationData` (src/world/connection.rs): generated keys and the three
seeds used to derive them. -/
structure ObsfucationData where
  keys : Option ScramblerKeys
  seed1 : Nat
  seed2 : Nat
  seed3 : Nat
  deriving DecidableEq

/-- The per-world configuration flags the session layer reads. -/
structure WorldConfig where
  enable_packet_obsfucation : Bool
  enable_packet_compression : Bool
  deriving DecidableEq

/-- Modelled from the spec: a zone's static layout (`Zone`, world module,
outside the provided sources) — the zone id plus its placement anchors ("pop
ranges"), resolved by instance id. -/
structure Zone where
  id : Nat
  pop_ranges : List (Nat × Position)
  deriving DecidableEq

/-- `Zone::find_pop_range`: the anchor with the given instance id, if any. -/
def Zone.find_pop_range (z : Zone) (id : Nat) : Option Position :=
  (z.pop_ranges.find? fun pr => pr.1 == id).map fun pr => pr.2

/-- The reference-data store: the `GameData` lookups the session layer makes
(src/common/gamedata.rs), carried as finite tables so that absence of a row is
an explicit `none`. -/
structure GameData where
  warp_table : List (Nat × (Nat × Nat))
  aetheryte_table : List (Nat × (Nat × Nat))
  weather_table : List (Nat × Int)
  classjob_exp_indexes : List Int
  item_table : List (Nat × ItemInfo)
  zone_layouts : List (Nat × List (Nat × Position))
  deriving DecidableEq

/-- `GameData::get_warp`: warp id to (pop range id, territory id). -/
def GameData.get_warp (gd : GameData) (warp_id : Nat) : Option (Nat × Nat) :=
  (gd.warp_table.find? fun r => r.1 == warp_id).map fun r => r.2

/-- `GameData::get_aetheryte`: aetheryte id to (pop range id, territory id). -/
def GameData.get_aetheryte (gd : GameData) (aetheryte_id : Nat) : Option (Nat × Nat) :=
  (gd.aetheryte_table.find? fun r => r.1 == aetheryte_id).map fun r => r.2

/-- `GameData::get_weather`: the current weather for a zone id. -/
def GameData.get_weather (gd : GameData) (zone_id : Nat) : Option Int :=
  (gd.weather_table.find? fun r => r.1 == zone_id).map fun r => r.2

/-- `GameData::get_exp_array_index`: `classjob_exp_indexes.get(id).copied()`. -/
def GameData.get_exp_array_index (gd : GameData) (classjob_id : Nat) : Option Int :=
  gd.classjob_exp_indexes.get? classjob_id

/-- `GameData::get_item_info`: the Item-sheet lookup. -/
def GameData.get_item_info (gd : GameData) : ItemInfoQuery → Option ItemInfo
  | .ById id => (gd.item_table.find? fun r => r.1 == id).map fun r => r.2

/-- Modelled from the spec: `Zone::load` loads the target zone's static layout
from reference data; absent layouts load as empty. -/
def Zone.load (gd : GameData) (zone_id : Nat) : Zone :=
  ⟨zone_id, ((gd.zone_layouts.find? fun r => r.1 == zone_id).map fun r => r.2).getD []⟩

/-- A session-local visibility record (`Actor`, world module): the fields the
embedded paths read. -/
structure Actor where
  id : Nat
  hp : Nat
  spawn_index : Nat
  deriving DecidableEq

/-- The common spawn payload (`CommonSpawn`): the fields
`get_player_common_spawn` fills. -/
structure CommonSpawn where
  class_job : Nat
  name : String
  hp_curr : Nat
  hp_max : Nat
  mp_curr : Nat
  mp_max : Nat
  level : Nat
  look : Nat
  main_weapon_model : Nat
  models : List Nat
  pos : Position
  rotation : Int
  voice : Nat
  spawn_index : Nat
  target_id : ObjectTypeId
  deriving DecidableEq

/-- The NPC spawn payload: its common part (the rest is opaque to the session
paths embedded here). -/
structure NpcSpawn where
  common : CommonSpawn
  deriving DecidableEq

/-- A character record from the durable store (`find_chara_make`): the fields
the embedded paths read. -/
structure CharaDetails where
  name : String
  voice_id : Nat
  look : Nat

/-- Modelled from the spec: repository code outside the provided sources that
the session calls, carried as opaque parameter functions so that every theorem
holds for any implementation — `ScramblerKeyGenerator::generate`, the equipped
storage's `calculate_item_level`, `Inventory::add_in_next_free_slot` (returns
the grown inventory, or `none` when full), `Item::new`,
`WorldDatabase::find_chara_make`, `Inventory::get_main_weapon_id` and
`Inventory::get_model_ids`. -/
structure Externals where
  generate_keys : Nat → Nat → Nat → ScramblerKeys
  calculate_item_level : Inventory → Nat
  add_in_next_free_slot : Inventory → Item → Option Inventory
  item_new : ItemInfo → Nat → Item
  find_chara_make : Nat → CharaDetails
  get_main_weapon_id : Inventory → Nat
  get_model_ids : Inventory → List Nat

/-- The actor-control categories used by the embedded paths. -/
inductive ActorControlCategory
  | SetItemLevel (level : Nat)
  | LearnTeleport (id : Nat) (unlocked : Bool)
  | ToggleUnlock (id : Nat) (unlocked : Bool)
  deriving DecidableEq

/-- The server-to-client IPC payloads the embedded paths emit
(`ServerZoneIpcData`); the opcode is determined by the variant. -/
inductive ServerZoneIpcData
  | PrepareZoning (target_zone : Nat)
  | UpdateClassInfo (class_id synced_level class_level current_level current_exp : Nat)
  | InitZone (territory_type weather_id obsfucation_mode seed1 seed2 seed3 : Nat)
  | ActorControlSelf (category : ActorControlCategory)
  | ServerChatMessage (message : String)
  | UpdateItem (sequence : Nat) (container : ContainerType)
      (slot quantity catalog_id condition glamour_catalog_id : Nat)
  | CurrencyCrystalInfo (sequence : Nat) (container : ContainerType) (quantity catalog_id : Nat)
  | ContainerInfo (container : ContainerType) (num_items sequence : Nat)
  | StatusEffectList (statues : List StatusEffect)
      (classjob_id level curr_hp max_hp curr_mp max_mp : Nat)
  | NpcSpawn (spawn : NpcSpawn)
  | WeatherId (weather_id : Nat)
  deriving DecidableEq

/-- A server zone IPC segment body: send timestamp plus payload. -/
structure ServerZoneIpcSegment where
  timestamp : Nat
  data : ServerZoneIpcData
  deriving DecidableEq

/-- The segment payloads the embedded paths emit (`SegmentData`); the
segment-type tag is determined by the variant. -/
inductive SegmentData
  | KeepAliveRequest (id : Nat) (timestamp : Nat)
  | Initialize (actor_id : Nat) (timestamp : Nat)
  | Ipc (data : ServerZoneIpcSegment)
  deriving DecidableEq

/-- A packet segment (`PacketSegment`): source and target actor ids default to
0 as in the source's `..Default::default()`. -/
structure PacketSegment where
  source_actor : Nat
  target_actor : Nat
  data : SegmentData
  deriving DecidableEq

/-- Messages to the world coordinator that the embedded paths send. -/
inductive ToServerMsg
  | LeftZone (actor_id : Nat) (zone_id : Nat)
  deriving DecidableEq

/-- The per-connection session state (`ZoneConnection`): the fields the
embedded operations read or write. -/
structure ConnectionState where
  config : WorldConfig
  player_data : PlayerData
  zone : Option Zone
  spawn_index : Nat
  status_effects : StatusEffects
  actors : List Actor
  exit_position : Option Position
  exit_rotation : Option Int
  gracefully_logged_out : Bool
  weather_id : Nat
  obsfucation_data : ObsfucationData
  deriving DecidableEq

/-- Modelled from the spec: `OBFUSCATION_ENABLED_MODE` (packet module, outside
the provided sources) — the nonzero tag reported in InitZone when obfuscation
is configured; its exact value is immaterial to the claims. -/
def OBFUSCATION_ENABLED_MODE : Nat := 41

/-- Modelled from the spec: `ERR_INVENTORY_ADD_FAILED` (crate root, outside the
provided sources) — the chat message reporting a failed item grant; its exact
text is immaterial to the claims. -/
def ERR_INVENTORY_ADD_FAILED : String := "Failed to add item to inventory!"

/-- Modelled from the spec: `common::value_to_flag_byte_index_value` — split an
unlock id into (bit value, byte index), such that re-combining recovers the id. -/
def value_to_flag_byte_index_value (id : Nat) : Nat × Nat :=
  (2 ^ (id % 8), id / 8)

/-- The segment `ZoneConnection::send_message` emits: a self-directed server
chat message. -/
def server_chat_segment (actor_id now : Nat) (message : String) : PacketSegment :=
  ⟨actor_id, actor_id, .Ipc ⟨now, .ServerChatMessage message⟩⟩

/-- The segment `ZoneConnection::actor_control_self` emits: a self-directed
ActorControlSelf. -/
def actor_control_self_segment (actor_id now : Nat) (category : ActorControlCategory) :
    PacketSegment :=
  ⟨actor_id, actor_id, .Ipc ⟨now, .ActorControlSelf category⟩⟩

/-- `ZoneConnection::current_level`: look up the exp-array index for the
current class/job (`unwrap` carried as `Option`) and read the level array. -/
def current_level (gd : GameData) (pd : PlayerData) : Option Int :=
  (gd.get_exp_array_index pd.classjob_id).map fun index =>
    pd.classjob_levels.getD index.toNat 0

/-- `ZoneConnection::current_exp`: same index, reading the exp array. -/
def current_exp (gd : GameData) (pd : PlayerData) : Option Nat :=
  (gd.get_exp_array_index pd.classjob_id).map fun index =>
    pd.classjob_exp.getD index.toNat 0

/-- `ZoneConnection::update_class_info`: the single self-directed
UpdateClassInfo segment it sends; the `unwrap` on the exp-array index is
carried as the error case. -/
def update_class_info (gd : GameData) (now : Nat) (c : ConnectionState) :
    Except String PacketSegment :=
  match gd.get_exp_array_index c.player_data.classjob_id with
  | none => .error ("called Option::unwrap() on a None value")
  | some index =>
    let lvl := u16_of_i32 (c.player_data.classjob_levels.getD index.toNat 0)
    let exp := c.player_data.classjob_exp.getD index.toNat 0
    .ok ⟨c.player_data.actor_id, c.player_data.actor_id,
      .Ipc ⟨now, .UpdateClassInfo c.player_data.classjob_id lvl lvl lvl exp⟩⟩

/-- `ZoneConnection::change_zone`.  The fresh random seeds drawn from
`fastrand` are the explicit arguments `fs1 fs2 fs3`; `now` is the send
timestamp; the result is the new state, the client-bound segments in emission
order, and the world-coordinator messages. -/
def change_zone (ext : Externals) (gd : GameData) (now fs1 fs2 fs3 : Nat)
    (c : ConnectionState) (new_zone_id : Nat) :
    Except String (ConnectionState × List PacketSegment × List ToServerMsg) :=
  let msgs : List ToServerMsg :=
    match c.zone with
    | some zone => [.LeftZone c.player_data.actor_id zone.id]
    | none => []
  let zone := Zone.load gd new_zone_id
  let c1 := { c with zone := some zone,
                     player_data := { c.player_data with zone_id := new_zone_id } }
  let prepSeg : PacketSegment :=
    ⟨c1.player_data.actor_id, c1.player_data.actor_id,
      .Ipc ⟨now, .PrepareZoning c1.player_data.zone_id⟩⟩
  match update_class_info gd now c1 with
  | .error e => .error e
  | .ok classSeg =>
    let c2 :=
      if c1.config.enable_packet_obsfucation then
        { c1 with obsfucation_data :=
            { keys := some (ext.generate_keys fs1 fs2 fs3),
              seed1 := fs1, seed2 := fs2, seed3 := fs3 } }
      else c1
    let initSeg : PacketSegment := ⟨0, 0, .Initialize c2.player_data.actor_id now⟩
    let c3 := { c2 with player_data := { c2.player_data with buyback_list := [] } }
    let c4 := { c3 with weather_id := u16_of_i32 ((gd.get_weather zone.id).getD 1) }
    let initZoneSeg : PacketSegment :=
      ⟨c4.player_data.actor_id, c4.player_data.actor_id,
        .Ipc ⟨now, .InitZone zone.id c4.weather_id
          (if c4.config.enable_packet_obsfucation then OBFUSCATION_ENABLED_MODE else 0)
          (not_u8 c4.obsfucation_data.seed1) (not_u8 c4.obsfucation_data.seed2)
          (not_u32 c4.obsfucation_data.seed3)⟩⟩
    let silSeg : PacketSegment :=
      actor_control_self_segment c4.player_data.actor_id now
        (.SetItemLevel (ext.calculate_item_level c4.player_data.inventory))
    .ok (c4, [prepSeg, classSeg, initSeg, initZoneSeg, silSeg], msgs)

/-- `ZoneConnection::warp`: resolve the warp row (`expect` carried as the error
case), look for the pop range in the destination zone — storing the exit
position only when found — then run the zone change. -/
def warp (ext : Externals) (gd : GameData) (now fs1 fs2 fs3 : Nat)
    (c : ConnectionState) (warp_id : Nat) :
    Except String (ConnectionState × List PacketSegment × List ToServerMsg) :=
  match gd.get_warp warp_id with
  | none => .error ("Failed to find the warp!")
  | some (pop_range_id, zone_id) =>
    let new_zone := Zone.load gd zone_id
    let c1 :=
      match new_zone.find_pop_range pop_range_id with
      | some pos => { c with exit_position := some pos }
      | none => c
    change_zone ext gd now fs1 fs2 fs3 c1 zone_id

/-- `ZoneConnection::warp_aetheryte`: same shape as `warp`, against the
aetheryte table. -/
def warp_aetheryte (ext : Externals) (gd : GameData) (now fs1 fs2 fs3 : Nat)
    (c : ConnectionState) (aetheryte_id : Nat) :
    Except String (ConnectionState × List PacketSegment × List ToServerMsg) :=
  match gd.get_aetheryte aetheryte_id with
  | none => .error ("Failed to find the aetheryte!")
  | some (pop_range_id, zone_id) =>
    let new_zone := Zone.load gd zone_id
    let c1 :=
      match new_zone.find_pop_range pop_range_id with
      | some pos => { c with exit_position := some pos }
      | none => c
    change_zone ext gd now fs1 fs2 fs3 c1 zone_id

/-- `ZoneConnection::get_player_common_spawn`: the spawn payload built from the
session, with the position defaulting to the origin when no exit position is
supplied. -/
def get_player_common_spawn (ext : Externals) (gd : GameData) (c : ConnectionState)
    (exit_position : Option Position) (exit_rotation : Option Int) :
    Except String CommonSpawn :=
  match gd.get_exp_array_index c.player_data.classjob_id with
  | none => .error ("called Option::unwrap() on a None value")
  | some index =>
    let chara_details := ext.find_chara_make c.player_data.content_id
    .ok { class_job := c.player_data.classjob_id,
          name := chara_details.name,
          hp_curr := c.player_data.curr_hp,
          hp_max := c.player_data.max_hp,
          mp_curr := c.player_data.curr_mp,
          mp_max := c.player_data.max_mp,
          level := u8_of_i32 (c.player_data.classjob_levels.getD index.toNat 0),
          look := chara_details.look,
          main_weapon_model := ext.get_main_weapon_id c.player_data.inventory,
          models := ext.get_model_ids c.player_data.inventory,
          pos := exit_position.getD ⟨0, 0, 0⟩,
          rotation := exit_rotation.getD 0,
          voice := chara_details.voice_id % 256,
          spawn_index := 0,
          target_id := ⟨0, 0⟩ }

/-- Modelled from the spec: after a warp, the zone-load path spawns the player
from the session's stored exit position and rotation (the glue passing
`self.exit_position` into `get_player_common_spawn` lives outside the provided
sources).  Returns the zone id reached and the spawn position used. -/
def post_warp_spawn_pos (ext : Externals) (gd : GameData) (now fs1 fs2 fs3 : Nat)
    (c : ConnectionState) (warp_id : Nat) : Except String (Nat × Position) :=
  match warp ext gd now fs1 fs2 fs3 c warp_id with
  | .error e => .error e
  | .ok (c2, _, _) =>
    match get_player_common_spawn ext gd c2 c2.exit_position c2.exit_rotation with
    | .error e => .error e
    | .ok spawn => .ok (c2.player_data.zone_id, spawn.pos)

/-- One aetheryte-bitmap update as the `Task::UnlockAetheryte` arm performs it:
split the id, then OR the bit in when turning on and XOR it when turning off. -/
def apply_aetheryte_bit (aetherytes : List Nat) (id : Nat) (on_flag : Bool) : List Nat :=
  let vi := value_to_flag_byte_index_value id
  if on_flag then aetherytes.set vi.2 (aetherytes.getD vi.2 0 ||| vi.1)
  else aetherytes.set vi.2 (aetherytes.getD vi.2 0 ^^^ vi.1)

/-- State update applying `apply_aetheryte_bit` inside the player data. -/
def set_aetheryte_bit (c : ConnectionState) (id : Nat) (on_flag : Bool) : ConnectionState :=
  { c with player_data := { c.player_data with
      unlocks := { c.player_data.unlocks with
        aetherytes := apply_aetheryte_bit c.player_data.unlocks.aetherytes id on_flag } } }

/-- The `Task::UnlockAetheryte` arm of `ZoneConnection::process_lua_player`:
id 0 unlocks/locks the whole range 1..=238, any other id toggles that single
aetheryte; each touched id is announced with a LearnTeleport ActorControlSelf. -/
def process_unlock_aetheryte (now : Nat) (c : ConnectionState) (id : Nat) (on_flag : Bool) :
    ConnectionState × List PacketSegment :=
  if id == 0 then
    (List.range' 1 238).foldl
      (fun acc i =>
        let c2 := set_aetheryte_bit acc.1 i on_flag
        (c2, acc.2 ++ [actor_control_self_segment c2.player_data.actor_id now
          (.LearnTeleport i on_flag)]))
      (c, [])
  else
    let c2 := set_aetheryte_bit c id on_flag
    (c2, [actor_control_self_segment c2.player_data.actor_id now (.LearnTeleport id on_flag)])

/-- The per-currency emission in `send_inventory`: suppressed when the quantity
is zero and this is the first update. -/
def currency_slot_segments (actor now : Nat) (first_update : Bool) (sequence : Nat)
    (container_type : ContainerType) (item : Item) : List PacketSegment :=
  if item.quantity == 0 && first_update then []
  else [⟨actor, actor, .Ipc ⟨now, .CurrencyCrystalInfo sequence container_type
    item.quantity item.id⟩⟩]

/-- The per-slot emission in `send_inventory`: suppressed when the quantity is
zero and this is the first update. -/
def item_slot_segments (actor now : Nat) (first_update : Bool) (sequence : Nat)
    (container_type : ContainerType) (slot_index : Nat) (item : Item) : List PacketSegment :=
  if item.quantity == 0 && first_update then []
  else [⟨actor, actor, .Ipc ⟨now, .UpdateItem sequence container_type slot_index
    item.quantity item.id item.condition item.glamour_catalog_id⟩⟩]

/-- The `for i in 0..max_slots` loop over a currency container's slots. -/
def currency_slots_loop (actor now : Nat) (first_update : Bool) (sequence : Nat)
    (container_type : ContainerType) : List Item → List PacketSegment
  | [] => []
  | item :: rest =>
    currency_slot_segments actor now first_update sequence container_type item
      ++ currency_slots_loop actor now first_update sequence container_type rest

/-- The `for i in 0..max_slots` loop over an item container's slots, carrying
the running slot index. -/
def item_slots_loop (actor now : Nat) (first_update : Bool) (sequence : Nat)
    (container_type : ContainerType) : Nat → List Item → List PacketSegment
  | _, [] => []
  | slot_index, item :: rest =>
    item_slot_segments actor now first_update sequence container_type slot_index item
      ++ item_slots_loop actor now first_update sequence container_type (slot_index + 1) rest

/-- The per-container ContainerInfo summary segment. -/
def container_info_segment (actor now : Nat) (container_type : ContainerType)
    (num_items sequence : Nat) : PacketSegment :=
  ⟨actor, actor, .Ipc ⟨now, .ContainerInfo container_type num_items sequence⟩⟩

/-- The container loop of `send_inventory`, carrying the enumeration index as
the running sequence: per-slot or per-currency segments, then the container
summary. -/
def containers_loop (actor now : Nat) (first_update : Bool) :
    Nat → List (ContainerType × Container) → List PacketSegment
  | _, [] => []
  | sequence, (container_type, cont) :: rest =>
    (if container_type == .Currency then
        currency_slots_loop actor now first_update sequence container_type cont.slots
      else
        item_slots_loop actor now first_update sequence container_type 0 cont.slots)
      ++ [container_info_segment actor now container_type cont.num_items sequence]
      ++ containers_loop actor now first_update (sequence + 1) rest

/-- The trailing loop of `send_inventory`: the unimplemented containers
reported as empty, with incrementing sequence numbers. -/
def dummy_containers_loop (actor now : Nat) : Nat → List ContainerType → List PacketSegment
  | _, [] => []
  | sequence, container_type :: rest =>
    container_info_segment actor now container_type 0 sequence
      :: dummy_containers_loop actor now (sequence + 1) rest

/-- `ZoneConnection::send_inventory`: the full emitted segment list.  The
trailing dummy block starts at `last_sequence + 1`, where `last_sequence` is
the index of the last real container (0 when there is none). -/
def send_inventory (now : Nat) (c : ConnectionState) (first_update : Bool) :
    List PacketSegment :=
  let inv := c.player_data.inventory.containers
  containers_loop c.player_data.actor_id now first_update 0 inv
    ++ dummy_containers_loop c.player_data.actor_id now (inv.length - 1 + 1)
        [.Crystals, .Mail, .Unk2, .ArmoryWaist]

/-- The fixed 30-slot StatusEffectList payload: the live effects followed by
default padding (`list[..len].copy_from_slice(&effects)` over a default
array). -/
def pad_status_list (l : List StatusEffect) : List StatusEffect :=
  l ++ List.replicate (30 - l.length) default

/-- `ZoneConnection::process_effects_list`: when the dirty flag is set, send
one StatusEffectList segment and clear the flag; otherwise send nothing. -/
def process_effects_list (gd : GameData) (now : Nat) (c : ConnectionState) :
    Except String (ConnectionState × List PacketSegment) :=
  if c.status_effects.dirty then
    match gd.get_exp_array_index c.player_data.classjob_id with
    | none => .error ("called Option::unwrap() on a None value")
    | some index =>
      .ok ({ c with status_effects := { c.status_effects with dirty := false } },
        [⟨c.player_data.actor_id, c.player_data.actor_id,
          .Ipc ⟨now, .StatusEffectList (pad_status_list c.status_effects.status_effects)
            c.player_data.classjob_id
            (u8_of_i32 (c.player_data.classjob_levels.getD index.toNat 0))
            c.player_data.curr_hp c.player_data.max_hp
            c.player_data.curr_mp c.player_data.max_mp⟩⟩])
  else .ok (c, [])

/-- The `Task::AddItem` arm of `ZoneConnection::process_lua_player`: look the
item up by id; on success add it to the inventory (optionally resyncing the
client), and on either failure — unknown id or full inventory — send the error
chat message and change nothing. -/
def process_add_item (ext : Externals) (gd : GameData) (now : Nat) (c : ConnectionState)
    (id quantity : Nat) (send_client_update : Bool) :
    ConnectionState × List PacketSegment :=
  match gd.get_item_info (.ById id) with
  | some item_info =>
    match ext.add_in_next_free_slot c.player_data.inventory (ext.item_new item_info quantity) with
    | some inv2 =>
      let c2 := { c with player_data := { c.player_data with inventory := inv2 } }
      if send_client_update then (c2, send_inventory now c2 false) else (c2, [])
    | none => (c, [server_chat_segment c.player_data.actor_id now ERR_INVENTORY_ADD_FAILED])
  | none => (c, [server_chat_segment c.player_data.actor_id now ERR_INVENTORY_ADD_FAILED])

/-- `ZoneConnection::get_free_spawn_index`: increment (`u8`, wrapping) and
return the new index together with the updated state. -/
def get_free_spawn_index (c : ConnectionState) : Nat × ConnectionState :=
  let new_index := (c.spawn_index + 1) % 256
  (new_index, { c with spawn_index := new_index })

/-- `ZoneConnection::spawn_actor`: assert the actor is not the session's own
player (`assert!` carried as the error case), assign the next spawn index,
emit the NpcSpawn segment, and append the actor to the roster. -/
def spawn_actor (now : Nat) (c : ConnectionState) (actor : Actor) (spawn : NpcSpawn) :
    Except String (ConnectionState × PacketSegment) :=
  if actor.id == c.player_data.actor_id then
    .error ("assertion failed: actor.id.0 != self.player_data.actor_id")
  else
    let r := get_free_spawn_index c
    let actor2 := { actor with spawn_index := r.1 }
    let spawn2 := { spawn with common := { spawn.common with
      spawn_index := r.1,
      target_id := ⟨actor2.id, 0⟩ } }
    .ok ({ r.2 with actors := r.2.actors ++ [actor2] },
      ⟨actor2.id, r.2.player_data.actor_id, .Ipc ⟨now, .NpcSpawn spawn2⟩⟩)

/-- Labels used to state the ordering claim about `change_zone`. -/
inductive SegLabel
  | prepareZoning
  | updateClassInfo
  | initializeSeg
  | initZoneFor (zone_id : Nat)
  | setItemLevelSelf
  | otherSeg
  deriving DecidableEq

/-- Classify a segment for the ordering claim: the self-item-level label
additionally checks the segment is self-directed. -/
def classify (player_actor_id : Nat) (s : PacketSegment) : SegLabel :=
  match s.data with
  | .Initialize _ _ => .initializeSeg
  | .Ipc ipc =>
    match ipc.data with
    | .PrepareZoning _ => .prepareZoning
    | .UpdateClassInfo _ _ _ _ _ => .updateClassInfo
    | .InitZone tt _ _ _ _ _ => .initZoneFor tt
    | .ActorControlSelf (.SetItemLevel _) =>
      if s.source_actor == player_actor_id && s.target_actor == player_actor_id then
        .setItemLevelSelf
      else .otherSeg
    | _ => .otherSeg
  | _ => .otherSeg

/-- Does this segment carry an UpdateItem payload for the given container
sequence and slot index? -/
def is_update_item_for (sequence slot : Nat) (s : PacketSegment) : Bool :=
  match s.data with
  | .Ipc ipc =>
    match ipc.data with
    | .UpdateItem seq _ sl _ _ _ _ => seq == sequence && sl == slot
    | _ => false
  | _ => false

/-- Does this segment carry a CurrencyCrystalInfo payload for the given
container sequence? -/
def is_currency_info_for (sequence : Nat) (s : PacketSegment) : Bool :=
  match s.data with
  | .Ipc ipc =>
    match ipc.data with
    | .CurrencyCrystalInfo seq _ _ _ => seq == sequence
    | _ => false
  | _ => false

/-- Does this segment carry a StatusEffectList payload? -/
def is_status_effect_list (s : PacketSegment) : Bool :=
  match s.data with
  | .Ipc ipc =>
    match ipc.data with
    | .StatusEffectList _ _ _ _ _ _ _ => true
    | _ => false
  | _ => false

/-- Does this segment carry a server chat message? -/
def is_server_chat_message (s : PacketSegment) : Bool :=
  match s.data with
  | .Ipc ipc =>
    match ipc.data with
    | .ServerChatMessage _ => true
    | _ => false
  | _ => false

/-- Does this segment carry any inventory-related payload (per-slot update,
currency update, or container summary)? -/
def is_inventory_segment (s : PacketSegment) : Bool :=
  match s.data with
  | .Ipc ipc =>
    match ipc.data with
    | .UpdateItem _ _ _ _ _ _ _ => true
    | .CurrencyCrystalInfo _ _ _ _ => true
    | .ContainerInfo _ _ _ => true
    | _ => false
  | _ => false

/-- Concrete externals used by the closed witnesses and counterexamples. -/
def ext0 : Externals :=
  ⟨fun _ _ _ => 0, fun _ => 0, fun _ _ => none, fun _ _ => ⟨0, 0, 0, 0⟩,
    fun _ => ⟨"", 0, 0⟩, fun _ => 0, fun _ => []⟩

/-- Concrete reference data with empty tables, except an exp-array index for
class/job 0. -/
def gd0 : GameData := ⟨[], [], [], [0], [], []⟩

/-- Concrete player data for the closed witnesses and counterexamples. -/
def pd0 : PlayerData :=
  { actor_id := 1000, content_id := 0, account_id := 0, classjob_id := 0,
    classjob_levels := [5], classjob_exp := [100], curr_hp := 100, max_hp := 100,
    curr_mp := 10000, max_mp := 10000, position := ⟨0, 0, 0⟩, rotation := 0,
    zone_id := 10, inventory := ⟨[]⟩, gm_invisible := false, item_sequence := 0,
    shop_sequence := 0, target_actorid := ⟨0, 0⟩, buyback_list := [],
    unlocks := ⟨[], [0, 0], []⟩, saw_inn_wakeup := false }

/-- Concrete session state for the closed witnesses and counterexamples. -/
def c0 : ConnectionState :=
  { config := ⟨false, false⟩, player_data := pd0, zone := none, spawn_index := 0,
    status_effects := ⟨[], false⟩, actors := [], exit_position := none,
    exit_rotation := none, gracefully_logged_out := false, weather_id := 0,
    obsfucation_data := ⟨none, 0, 0, 0⟩ }

/-- Session state whose aetheryte bitmap already has the id-1 bit set. -/
def c5 : ConnectionState :=
  { c0 with player_data := { pd0 with unlocks := ⟨[], [2], []⟩ } }

/-- Reference data with one warp row (id 5, pop range 77, territory 200) and
no layout for the destination, so the pop range cannot be found. -/
def gd6 : GameData := ⟨[(5, (77, 200))], [], [], [0], [], []⟩

/-- Session state holding a stale exit position from an earlier transition. -/
def c6 : ConnectionState := { c0 with exit_position := some ⟨1, 2, 3⟩ }

/-- Session state with a dirty status-effect list. -/
def c8 : ConnectionState := { c0 with status_effects := ⟨[], true⟩ }

/-- Session state with packet obfuscation enabled. -/
def cOb : ConnectionState := { c0 with config := ⟨true, false⟩ }

/-- A concrete NPC spawn payload. -/
def npc0 : NpcSpawn :=
  ⟨⟨0, "", 0, 0, 0, 0, 0, 0, 0, [], ⟨0, 0, 0⟩, 0, 0, 0, ⟨0, 0⟩⟩⟩

/-- Session state whose inventory holds one item container with a single
zero-quantity slot. -/
def c7 : ConnectionState :=
  { c0 with player_data :=
      { pd0 with inventory := ⟨[(.Bag 0, ⟨[⟨0, 0, 0, 0⟩]⟩)]⟩ } }

/-- Session state whose inventory holds one currency container with a single
zero-quantity slot. -/
def c7c : ConnectionState :=
  { c0 with player_data :=
      { pd0 with inventory := ⟨[(.Currency, ⟨[⟨1, 0, 0, 0⟩]⟩)]⟩ } }

/-- Disjoint bits cancel: OR-ing a bit pattern in and then XOR-ing it out
restores the original value. -/
theorem lor_xor_cancel {b v : Nat} (h : b &&& v = 0) : (b ||| v) ^^^ v = b := by
  apply Nat.eq_of_testBit_eq
  intro i
  have hb : (b &&& v).testBit i = false := by rw [h]; exact Nat.zero_testBit i
  rw [Nat.testBit_and] at hb
  rw [Nat.testBit_xor, Nat.testBit_or]
  cases hbi : b.testBit i <;> cases hvi : v.testBit i <;> simp_all

/-- Setting a byte to itself OR a disjoint pattern, then to that XOR the same
pattern, restores the original list. -/
theorem set_or_xor_restore (l : List Nat) (i v : Nat) (h : l.getD i 0 &&& v = 0) :
    (l.set i (l.getD i 0 ||| v)).set i
      ((l.set i (l.getD i 0 ||| v)).getD i 0 ^^^ v) = l := by
  induction l generalizing i with
  | nil => simp
  | cons x xs ih =>
    cases i with
    | zero =>
      simp only [List.getD_cons_zero, List.set_cons_zero]
      rw [lor_xor_cancel (by simpa using h)]
    | succ n =>
      simp only [List.getD_cons_succ, List.set_cons_succ, List.cons.injEq, true_and]
      exact ih n (by simpa using h)

/-- C3: the weather window at `unix = 0` follows the documented bit mixing and
yields 56, yet while the claim's cumulative rule then selects weather 2 from
the table [(1, 30), (2, 30), (3, 40)], the code's non-cumulative filter finds
no rate above 56 and returns no weather at all. -/
theorem weather_rate_noncumulative_divergence :
    calculate_target 0 = 56 ∧
    get_weather_rate [(1, 30), (2, 30), (3, 40)] 0 = none ∧
    cumulative_weather_choice [(1, 30), (2, 30), (3, 40)] (calculate_target 0) = some 2 := by
  decide

/-- C4 counterexample: with the warp and aetheryte tables lacking row 5, both
`warp` and `warp_aetheryte` abort with the `expect` panic instead of failing
gracefully, so absence of the row is not a non-fatal outcome there. -/
theorem warp_missing_row_panics_cex :
    warp ext0 gd0 0 0 0 0 c0 5 = .error ("Failed to find the warp!") ∧
    warp_aetheryte ext0 gd0 0 0 0 0 c0 5 = .error ("Failed to find the aetheryte!") := by
  exact ⟨rfl, rfl⟩

/-- C4 (amended): in `ZoneConnection::warp` and `ZoneConnection::warp_aetheryte`
the absence of the requested warp or aetheryte row aborts the session task via
the `expect` panic; it is not handled gracefully. -/
theorem warp_missing_row_aborts (ext : Externals) (gd : GameData) (now fs1 fs2 fs3 : Nat)
    (c : ConnectionState) (warp_id aetheryte_id : Nat) :
    (gd.get_warp warp_id = none →
      warp ext gd now fs1 fs2 fs3 c warp_id = .error ("Failed to find the warp!")) ∧
    (gd.get_aetheryte aetheryte_id = none →
      warp_aetheryte ext gd now fs1 fs2 fs3 c aetheryte_id =
        .error ("Failed to find the aetheryte!")) := by
  constructor
  · intro h
    simp [warp, h]
  · intro h
    simp [warp_aetheryte, h]

/-- C4 witness: the amended theorem applied at the concrete empty tables. -/
theorem warp_missing_row_aborts_witness :
    gd0.get_warp 5 = none ∧ gd0.get_aetheryte 5 = none ∧
    warp ext0 gd0 0 0 0 0 c0 5 = .error ("Failed to find the warp!") ∧
    warp_aetheryte ext0 gd0 0 0 0 0 c0 5 = .error ("Failed to find the aetheryte!") :=
  ⟨rfl, rfl, (warp_missing_row_aborts ext0 gd0 0 0 0 0 c0 5 5).1 rfl,
    (warp_missing_row_aborts ext0 gd0 0 0 0 0 c0 5 5).2 rfl⟩

/-- C5 counterexample: starting from an aetheryte bitmap in which the bit for
id 1 is already set ([2]), unlocking id 1 and then toggling it off yields [0],
not the original bitmap — the off path XORs the bit away. -/
theorem unlock_aetheryte_toggle_cex :
    (process_unlock_aetheryte 0 (process_unlock_aetheryte 0 c5 1 true).1 1
        false).1.player_data.unlocks.aetherytes = [0] ∧
    c5.player_data.unlocks.aetherytes = [2] ∧
    (([0] : List Nat) ≠ [2]) := by
  decide

/-- C5 (amended): for a nonzero aetheryte id whose bit is not already set in
the bitmap, an UnlockAetheryte on-task followed by an off-task for the same id
returns `player_data.unlocks.aetherytes` to its original state. -/
theorem unlock_aetheryte_toggle_restores (now now2 : Nat) (c : ConnectionState) (id : Nat)
    (hid : id ≠ 0)
    (hbit : c.player_data.unlocks.aetherytes.getD (id / 8) 0 &&& 2 ^ (id % 8) = 0) :
    (process_unlock_aetheryte now2 (process_unlock_aetheryte now c id true).1 id
        false).1.player_data.unlocks.aetherytes = c.player_data.unlocks.aetherytes := by
  have hid2 : (id == 0) = false := by simpa using hid
  simp only [process_unlock_aetheryte, hid2, Bool.false_eq_true, if_false,
    set_aetheryte_bit, apply_aetheryte_bit, value_to_flag_byte_index_value]
  exact set_or_xor_restore _ _ _ hbit

/-- C5 witness: the amended theorem applied at the all-clear bitmap of `c0`. -/
theorem unlock_aetheryte_toggle_restores_witness :
    (1 : Nat) ≠ 0 ∧
    c0.player_data.unlocks.aetherytes.getD (1 / 8) 0 &&& 2 ^ (1 % 8) = 0 ∧
    (process_unlock_aetheryte 0 (process_unlock_aetheryte 0 c0 1 true).1 1
        false).1.player_data.unlocks.aetherytes = c0.player_data.unlocks.aetherytes :=
  ⟨by decide, by decide, unlock_aetheryte_toggle_restores 0 0 c0 1 (by decide) (by decide)⟩

/-- C9: an AddItem task whose item id has no reference-data row emits exactly
the one failure chat message — no inventory segment of any kind — and leaves
the state, in particular the inventory, unchanged. -/
theorem add_item_unknown_id_chat_only (ext : Externals) (gd : GameData) (now : Nat)
    (c : ConnectionState) (id quantity : Nat) (send_client_update : Bool)
    (h : gd.get_item_info (.ById id) = none) :
    process_add_item ext gd now c id quantity send_client_update =
      (c, [server_chat_segment c.player_data.actor_id now ERR_INVENTORY_ADD_FAILED]) ∧
    (process_add_item ext gd now c id quantity send_client_update).2.countP
      is_server_chat_message = 1 ∧
    (process_add_item ext gd now c id quantity send_client_update).2.countP
      is_inventory_segment = 0 ∧
    (process_add_item ext gd now c id quantity
        send_client_update).1.player_data.inventory = c.player_data.inventory := by
  refine ⟨?_, ?_, ?_, ?_⟩ <;>
    simp [process_add_item, h, server_chat_segment, is_server_chat_message,
      is_inventory_segment, List.countP_cons, List.countP_nil]

/-- C9 witness: the theorem applied at the empty item table. -/
theorem add_item_unknown_id_chat_only_witness :
    gd0.get_item_info (.ById 42) = none ∧
    process_add_item ext0 gd0 0 c0 42 1 true =
      (c0, [server_chat_segment c0.player_data.actor_id 0 ERR_INVENTORY_ADD_FAILED]) :=
  ⟨rfl, (add_item_unknown_id_chat_only ext0 gd0 0 c0 42 1 true rfl).1⟩

/-- C10: spawning the session's own player hits the assertion and aborts
without touching the roster; spawning any other actor assigns the next spawn
index (wrapping `u8` increment) and appends the actor to the roster. -/
theorem spawn_actor_spec (now : Nat) (c : ConnectionState) (actor : Actor)
    (spawn : NpcSpawn) :
    (actor.id = c.player_data.actor_id →
      spawn_actor now c actor spawn =
        .error ("assertion failed: actor.id.0 != self.player_data.actor_id")) ∧
    (actor.id ≠ c.player_data.actor_id →
      ∃ seg, spawn_actor now c actor spawn =
        .ok ({ c with spawn_index := (c.spawn_index + 1) % 256,
                      actors := c.actors ++
                        [{ actor with spawn_index := (c.spawn_index + 1) % 256 }] }, seg)) := by
  constructor
  · intro h
    simp [spawn_actor, h]
  · intro h
    refine ⟨⟨actor.id, c.player_data.actor_id,
      .Ipc ⟨now, .NpcSpawn { spawn with common :=
        { spawn.common with spawn_index := (c.spawn_index + 1) % 256,
                            target_id := ⟨actor.id, 0⟩ } }⟩⟩, ?_⟩
    simp [spawn_actor, h, get_free_spawn_index]

/-- C10 witness: the theorem applied at the player's own id 1000 and at the
distinct id 7. -/
theorem spawn_actor_spec_witness :
    spawn_actor 0 c0 ⟨1000, 50, 0⟩ npc0 =
      .error ("assertion failed: actor.id.0 != self.player_data.actor_id") ∧
    (∃ seg, spawn_actor 0 c0 ⟨7, 50, 0⟩ npc0 =
      .ok ({ c0 with spawn_index := (c0.spawn_index + 1) % 256,
                     actors := c0.actors ++
                       [{ (⟨7, 50, 0⟩ : Actor) with
                          spawn_index := (c0.spawn_index + 1) % 256 }] },
        seg)) :=
  ⟨(spawn_actor_spec 0 c0 ⟨1000, 50, 0⟩ npc0).1 rfl,
    (spawn_actor_spec 0 c0 ⟨7, 50, 0⟩ npc0).2 (by decide)⟩

/-- After any successful `process_effects_list` call the dirty flag is clear
and at most one StatusEffectList segment was sent. -/
theorem process_effects_list_ok (gd : GameData) (now : Nat) (c c2 : ConnectionState)
    (s : List PacketSegment) (h : process_effects_list gd now c = .ok (c2, s)) :
    c2.status_effects.dirty = false ∧ s.countP is_status_effect_list ≤ 1 := by
  by_cases hd : c.status_effects.dirty = true
  · rw [process_effects_list, if_pos hd] at h
    cases hidx : gd.get_exp_array_index c.player_data.classjob_id with
    | none => rw [hidx] at h; cases h
    | some index =>
      rw [hidx] at h
      simp only [Except.ok.injEq, Prod.mk.injEq] at h
      obtain ⟨hc, hs⟩ := h
      subst hc
      subst hs
      exact ⟨rfl, by simp [is_status_effect_list, List.countP_cons]⟩
  · rw [process_effects_list, if_neg hd] at h
    simp only [Except.ok.injEq, Prod.mk.injEq] at h
    obtain ⟨hc, hs⟩ := h
    subst hc
    subst hs
    exact ⟨by simpa using hd, by simp⟩

/-- `process_effects_list` on a clean state sends nothing and changes nothing. -/
theorem process_effects_list_clean (gd : GameData) (now : Nat) (c : ConnectionState)
    (h : c.status_effects.dirty = false) :
    process_effects_list gd now c = .ok (c, []) := by
  rw [process_effects_list, if_neg (by simp [h])]

/-- C8: two successive `process_effects_list` calls with no intervening
mutation send at most one StatusEffectList segment in total — the dirty flag is
cleared by the first send, so the second call sends nothing. -/
theorem process_effects_list_sends_at_most_once (gd : GameData) (now now2 : Nat)
    (c c1 c2 : ConnectionState) (s1 s2 : List PacketSegment)
    (h1 : process_effects_list gd now c = .ok (c1, s1))
    (h2 : process_effects_list gd now2 c1 = .ok (c2, s2)) :
    (s1 ++ s2).countP is_status_effect_list ≤ 1 := by
  obtain ⟨hdirty, hcount⟩ := process_effects_list_ok gd now c c1 s1 h1
  rw [process_effects_list_clean gd now2 c1 hdirty] at h2
  simp only [Except.ok.injEq, Prod.mk.injEq] at h2
  obtain ⟨_, hs2⟩ := h2
  subst hs2
  simpa using hcount

/-- C8 witness: the theorem applied at the concrete dirty state `c8`, whose
first call sends the one StatusEffectList segment and yields the clean `c0`. -/
theorem process_effects_list_sends_at_most_once_witness :
    process_effects_list gd0 0 c8 =
      .ok (c0, [⟨1000, 1000, .Ipc ⟨0, .StatusEffectList (pad_status_list []) 0 5 100 100
        10000 10000⟩⟩]) ∧
    process_effects_list gd0 0 c0 = .ok (c0, []) ∧
    ([(⟨1000, 1000, .Ipc ⟨0, .StatusEffectList (pad_status_list []) 0 5 100 100
        10000 10000⟩⟩ : PacketSegment)] ++ ([] : List PacketSegment)).countP
      is_status_effect_list ≤ 1 :=
  ⟨rfl, rfl,
    process_effects_list_sends_at_most_once gd0 0 0 c8 c0 c0 _ _ rfl rfl⟩

/-- C1: a zone change emits, in this strict order, PrepareZoning, the
class-info update, Initialize, InitZone carrying the new zone id, and the
self-directed SetItemLevel ActorControlSelf — and nothing else — and leaves
`player_data.zone_id` equal to the new zone id. -/
theorem change_zone_emits_ordered_segments (ext : Externals) (gd : GameData)
    (now fs1 fs2 fs3 : Nat) (c : ConnectionState) (new_zone_id : Nat) (index : Int)
    (h : gd.get_exp_array_index c.player_data.classjob_id = some index) :
    ∃ c2 segs msgs,
      change_zone ext gd now fs1 fs2 fs3 c new_zone_id = .ok (c2, segs, msgs) ∧
      segs.map (classify c.player_data.actor_id) =
        [.prepareZoning, .updateClassInfo, .initializeSeg, .initZoneFor new_zone_id,
          .setItemLevelSelf] ∧
      c2.player_data.zone_id = new_zone_id := by
  by_cases hob : c.config.enable_packet_obsfucation = true
  · simp only [change_zone, update_class_info, h, hob, if_true]
    refine ⟨_, _, _, rfl, ?_, rfl⟩
    simp [classify, actor_control_self_segment, Zone.load]
  · simp only [change_zone, update_class_info, h, hob, if_false]
    refine ⟨_, _, _, rfl, ?_, rfl⟩
    simp [classify, actor_control_self_segment, Zone.load]

/-- C1 witness: the theorem applied at the concrete session `c0` and zone 100. -/
theorem change_zone_emits_ordered_segments_witness :
    gd0.get_exp_array_index c0.player_data.classjob_id = some 0 ∧
    (∃ c2 segs msgs,
      change_zone ext0 gd0 7 0 0 0 c0 100 = .ok (c2, segs, msgs) ∧
      segs.map (classify c0.player_data.actor_id) =
        [.prepareZoning, .updateClassInfo, .initializeSeg, .initZoneFor 100,
          .setItemLevelSelf] ∧
      c2.player_data.zone_id = 100) :=
  ⟨rfl, change_zone_emits_ordered_segments ext0 gd0 7 0 0 0 c0 100 0 rfl⟩

/-- C2: when obfuscation is configured, a zone change stores the three fresh
seeds and the key material generated from them, and the InitZone segment (the
fourth segment) transmits exactly the bitwise complement of each stored seed —
for every seed value in range, including 0 and the maxima. -/
theorem init_zone_seeds_are_complement (ext : Externals) (gd : GameData)
    (now fs1 fs2 fs3 : Nat) (c : ConnectionState) (new_zone_id : Nat) (index : Int)
    (hob : c.config.enable_packet_obsfucation = true)
    (h1 : fs1 < 256) (h2 : fs2 < 256) (h3 : fs3 < 4294967296)
    (h : gd.get_exp_array_index c.player_data.classjob_id = some index) :
    ∃ c2 segs msgs,
      change_zone ext gd now fs1 fs2 fs3 c new_zone_id = .ok (c2, segs, msgs) ∧
      c2.obsfucation_data =
        ⟨some (ext.generate_keys fs1 fs2 fs3), fs1, fs2, fs3⟩ ∧
      segs.get? 3 = some ⟨c.player_data.actor_id, c.player_data.actor_id,
        .Ipc ⟨now, .InitZone new_zone_id c2.weather_id OBFUSCATION_ENABLED_MODE
          (255 - fs1) (255 - fs2) (4294967295 - fs3)⟩⟩ := by
  simp only [change_zone, update_class_info, h, hob, if_true]
  refine ⟨_, _, _, rfl, rfl, ?_⟩
  simp [not_u8, not_u32, Nat.mod_eq_of_lt h1, Nat.mod_eq_of_lt h2, Nat.mod_eq_of_lt h3,
    Zone.load]

/-- C2 witness: the theorem applied with obfuscation on and the extreme seeds
0, 255 and 4294967295. -/
theorem init_zone_seeds_are_complement_witness :
    cOb.config.enable_packet_obsfucation = true ∧
    (0 : Nat) < 256 ∧ (255 : Nat) < 256 ∧ (4294967295 : Nat) < 4294967296 ∧
    gd0.get_exp_array_index cOb.player_data.classjob_id = some 0 ∧
    (∃ c2 segs msgs,
      change_zone ext0 gd0 7 0 255 4294967295 cOb 100 = .ok (c2, segs, msgs) ∧
      c2.obsfucation_data = ⟨some (ext0.generate_keys 0 255 4294967295), 0, 255, 4294967295⟩ ∧
      segs.get? 3 = some ⟨cOb.player_data.actor_id, cOb.player_data.actor_id,
        .Ipc ⟨7, .InitZone 100 c2.weather_id OBFUSCATION_ENABLED_MODE
          (255 - 0) (255 - 255) (4294967295 - 4294967295)⟩⟩) :=
  ⟨rfl, by decide, by decide, by decide, rfl,
    init_zone_seeds_are_complement ext0 gd0 7 0 255 4294967295 cOb 100 0 rfl
      (by decide) (by decide) (by decide) rfl⟩

/-- C6 counterexample: when the destination's pop range is missing but the
session still holds a stale exit position (1, 2, 3), the warp completes into
zone 200 with spawn position (1, 2, 3), not (0, 0, 0). -/
theorem warp_stale_exit_position_cex :
    (Zone.load gd6 200).find_pop_range 77 = none ∧
    post_warp_spawn_pos ext0 gd6 0 0 0 0 c6 5 = .ok (200, ⟨1, 2, 3⟩) ∧
    ((⟨1, 2, 3⟩ : Position) ≠ ⟨0, 0, 0⟩) :=
  ⟨rfl, rfl, by decide⟩

/-- C6 (amended): a warp whose destination zone is found but whose pop range
is absent leaves the stored exit position unchanged and still completes the
zone change (the destination zone id is set, the transition is not aborted);
consequently the spawn position falls back to (0, 0, 0) exactly when no exit
position was stored. -/
theorem warp_missing_pop_range_completes (ext : Externals) (gd : GameData)
    (now fs1 fs2 fs3 : Nat) (c : ConnectionState) (warp_id pop_range_id dest : Nat)
    (index : Int)
    (hw : gd.get_warp warp_id = some (pop_range_id, dest))
    (hpr : (Zone.load gd dest).find_pop_range pop_range_id = none)
    (h : gd.get_exp_array_index c.player_data.classjob_id = some index) :
    ∃ c2 segs msgs,
      warp ext gd now fs1 fs2 fs3 c warp_id = .ok (c2, segs, msgs) ∧
      c2.player_data.zone_id = dest ∧
      c2.exit_position = c.exit_position ∧
      (c.exit_position = none →
        post_warp_spawn_pos ext gd now fs1 fs2 fs3 c warp_id = .ok (dest, ⟨0, 0, 0⟩)) := by
  by_cases hob : c.config.enable_packet_obsfucation = true
  · simp only [warp, hw, hpr, change_zone, update_class_info, h, hob, if_true]
    refine ⟨_, _, _, rfl, rfl, rfl, ?_⟩
    intro hex
    simp [post_warp_spawn_pos, warp, hw, hpr, change_zone, update_class_info, h, hob,
      get_player_common_spawn, hex]
  · simp only [warp, hw, hpr, change_zone, update_class_info, h, hob, if_false]
    refine ⟨_, _, _, rfl, rfl, rfl, ?_⟩
    intro hex
    simp [post_warp_spawn_pos, warp, hw, hpr, change_zone, update_class_info, h, hob,
      get_player_common_spawn, hex]

/-- C6 witness: the amended theorem applied at the fresh session `c0` (no
stored exit position) and the warp row (5, 77, 200) of `gd6`. -/
theorem warp_missing_pop_range_completes_witness :
    gd6.get_warp 5 = some (77, 200) ∧
    (Zone.load gd6 200).find_pop_range 77 = none ∧
    gd6.get_exp_array_index c0.player_data.classjob_id = some 0 ∧
    c0.exit_position = none ∧
    (∃ c2 segs msgs,
      warp ext0 gd6 0 0 0 0 c0 5 = .ok (c2, segs, msgs) ∧
      c2.player_data.zone_id = 200 ∧
      c2.exit_position = c0.exit_position ∧
      (c0.exit_position = none →
        post_warp_spawn_pos ext0 gd6 0 0 0 0 c0 5 = .ok (200, ⟨0, 0, 0⟩))) :=
  ⟨rfl, rfl, rfl, rfl,
    warp_missing_pop_range_completes ext0 gd6 0 0 0 0 c0 5 77 200 0 rfl rfl rfl⟩

/-- UpdateItem segments emitted for a different container sequence never match
the predicate. -/
theorem item_slots_loop_countP_ne (actor now : Nat) (first : Bool)
    (seq k i : Nat) (ct : ContainerType) (hk : (seq == k) = false) :
    ∀ (l : List Item) (s : Nat),
      (item_slots_loop actor now first seq ct s l).countP (is_update_item_for k i) = 0 := by
  intro l
  induction l with
  | nil => intro s; simp [item_slots_loop]
  | cons x xs ih =>
    intro s
    cases hq : (x.quantity == 0 && first) <;>
      simp [item_slots_loop, item_slot_segments, hq, is_update_item_for, hk,
        List.countP_append, ih]

/-- The currency loop emits no UpdateItem segment at all. -/
theorem currency_slots_loop_countP_item (actor now : Nat) (first : Bool)
    (seq k i : Nat) (ct : ContainerType) :
    ∀ l, (currency_slots_loop actor now first seq ct l).countP (is_update_item_for k i)
      = 0 := by
  intro l
  induction l with
  | nil => simp [currency_slots_loop]
  | cons x xs ih =>
    cases hq : (x.quantity == 0 && first) <;>
      simp [currency_slots_loop, currency_slot_segments, hq, is_update_item_for,
        List.countP_append, ih]

/-- In the item loop, slots at or above the running index never match a lower
target slot. -/
theorem item_slots_loop_countP_slot_lt (actor now : Nat) (first : Bool)
    (seq k i : Nat) (ct : ContainerType) :
    ∀ (l : List Item) (s : Nat), i < s →
      (item_slots_loop actor now first seq ct s l).countP (is_update_item_for k i) = 0 := by
  intro l
  induction l with
  | nil => intro s _; simp [item_slots_loop]
  | cons x xs ih =>
    intro s hs
    have hsi : (s == i) = false := beq_eq_false_iff_ne.mpr (Nat.ne_of_gt hs)
    cases hq : (x.quantity == 0 && first) <;>
      simp [item_slots_loop, item_slot_segments, hq, is_update_item_for, hsi,
        List.countP_append, ih (s + 1) (Nat.lt_succ_of_lt hs)]

/-- The item loop emits, for a zero-quantity slot, no matching UpdateItem
segment on the first update and exactly one afterwards. -/
theorem item_slots_loop_countP_at (actor now : Nat) (first : Bool)
    (seq : Nat) (ct : ContainerType) :
    ∀ (l : List Item) (s j : Nat) (item : Item), l.get? j = some item →
      item.quantity = 0 →
      (item_slots_loop actor now first seq ct s l).countP (is_update_item_for seq (s + j))
        = if first then 0 else 1 := by
  intro l
  induction l with
  | nil => intro s j item hj _; cases hj
  | cons x xs ih =>
    intro s j item hj hq
    cases j with
    | zero =>
      have hx : x = item := by simpa using hj
      subst hx
      rw [item_slots_loop, List.countP_append,
        item_slots_loop_countP_slot_lt actor now first seq seq (s + 0) ct xs (s + 1)
          (by omega)]
      cases first with
      | true => simp [item_slot_segments, hq]
      | false => simp [item_slot_segments, hq, is_update_item_for]
    | succ n =>
      have hsn : (s == s + 1 + n) = false := beq_eq_false_iff_ne.mpr (by omega)
      rw [item_slots_loop, List.countP_append]
      have ihx := ih (s + 1) n item (by simpa using hj) hq
      rw [show s + (n + 1) = s + 1 + n by omega, ihx]
      cases hqq : (x.quantity == 0 && first) <;>
        simp [item_slot_segments, hqq, is_update_item_for, hsn]

/-- Container blocks whose sequence exceeds the target contribute no matching
UpdateItem segment. -/
theorem containers_loop_countP_item_gt (actor now : Nat) (first : Bool) (k i : Nat) :
    ∀ (inv : List (ContainerType × Container)) (seq0 : Nat), k < seq0 →
      (containers_loop actor now first seq0 inv).countP (is_update_item_for k i) = 0 := by
  intro inv
  induction inv with
  | nil => intro seq0 _; simp [containers_loop]
  | cons p rest ih =>
    intro seq0 hs
    obtain ⟨ct, cont⟩ := p
    have hne : (seq0 == k) = false := beq_eq_false_iff_ne.mpr (by omega)
    cases hct : (ct == ContainerType.Currency) <;>
      simp [containers_loop, hct, List.countP_append,
        item_slots_loop_countP_ne actor now first seq0 k i ct hne,
        currency_slots_loop_countP_item, container_info_segment, is_update_item_for,
        ih (seq0 + 1) (by omega)]

/-- Full container loop: for a zero-quantity slot of a non-currency container,
the matching UpdateItem count is 0 on the first update and 1 afterwards. -/
theorem containers_loop_countP_item_at (actor now : Nat) (first : Bool) (i : Nat) :
    ∀ (inv : List (ContainerType × Container)) (seq0 m : Nat) (ct : ContainerType)
      (cont : Container) (item : Item),
      inv.get? m = some (ct, cont) → (ct == ContainerType.Currency) = false →
      cont.slots.get? i = some item → item.quantity = 0 →
      (containers_loop actor now first seq0 inv).countP (is_update_item_for (seq0 + m) i)
        = if first then 0 else 1 := by
  intro inv
  induction inv with
  | nil => intro seq0 m ct cont item hm _ _ _; cases hm
  | cons p rest ih =>
    intro seq0 m ct cont item hm hct hi hq
    obtain ⟨ct0, cont0⟩ := p
    cases m with
    | zero =>
      have hpair : ct0 = ct ∧ cont0 = cont := by simpa using hm
      obtain ⟨rfl, rfl⟩ := hpair
      have hmain := item_slots_loop_countP_at actor now first seq0 ct0 cont0.slots 0 i
        item hi hq
      rw [Nat.zero_add] at hmain
      rw [containers_loop, Nat.add_zero, List.countP_append,
        containers_loop_countP_item_gt actor now first seq0 i rest (seq0 + 1) (by omega)]
      simp [hct, hmain, container_info_segment, is_update_item_for]
    | succ n =>
      have ihx := ih (seq0 + 1) n ct cont item (by simpa using hm) hct hi hq
      rw [containers_loop, List.countP_append,
        show seq0 + (n + 1) = seq0 + 1 + n by omega, ihx]
      have hne : (seq0 == seq0 + 1 + n) = false := beq_eq_false_iff_ne.mpr (by omega)
      cases hct0 : (ct0 == ContainerType.Currency) <;>
        simp [hct0, item_slots_loop_countP_ne actor now first seq0 (seq0 + 1 + n) i ct0 hne,
          currency_slots_loop_countP_item, container_info_segment, is_update_item_for]

/-- The trailing dummy ContainerInfo block emits no UpdateItem segment. -/
theorem dummy_containers_loop_countP_item (actor now k i : Nat) :
    ∀ (cts : List ContainerType) (s : Nat),
      (dummy_containers_loop actor now s cts).countP (is_update_item_for k i) = 0 := by
  intro cts
  induction cts with
  | nil => intro s; simp [dummy_containers_loop]
  | cons ct rest ih =>
    intro s
    simp [dummy_containers_loop, container_info_segment, is_update_item_for, ih]

/-- The currency loop at the matching sequence emits one CurrencyCrystalInfo
segment per slot, except that zero-quantity slots are suppressed on the first
update. -/
theorem currency_slots_loop_countP_self (actor now : Nat) (first : Bool)
    (seq : Nat) (ct : ContainerType) :
    ∀ l, (currency_slots_loop actor now first seq ct l).countP (is_currency_info_for seq)
      = if first then l.countP (fun it => it.quantity != 0) else l.length := by
  intro l
  induction l with
  | nil => simp [currency_slots_loop]
  | cons x xs ih =>
    cases hfirst : first <;> rw [hfirst] at ih <;> cases hq : (x.quantity == 0) <;>
      simp [currency_slots_loop, currency_slot_segments, hq, is_currency_info_for,
        List.countP_append, List.countP_cons, bne, ih]

/-- CurrencyCrystalInfo segments emitted for a different container sequence
never match the predicate. -/
theorem currency_slots_loop_countP_ne (actor now : Nat) (first : Bool)
    (seq k : Nat) (ct : ContainerType) (hk : (seq == k) = false) :
    ∀ l, (currency_slots_loop actor now first seq ct l).countP (is_currency_info_for k)
      = 0 := by
  intro l
  induction l with
  | nil => simp [currency_slots_loop]
  | cons x xs ih =>
    cases hq : (x.quantity == 0 && first) <;>
      simp [currency_slots_loop, currency_slot_segments, hq, is_currency_info_for, hk,
        List.countP_append, ih]

/-- The item loop emits no CurrencyCrystalInfo segment at all. -/
theorem item_slots_loop_countP_currency (actor now : Nat) (first : Bool)
    (seq k : Nat) (ct : ContainerType) :
    ∀ l s, (item_slots_loop actor now first seq ct s l).countP (is_currency_info_for k)
      = 0 := by
  intro l
  induction l with
  | nil => intro s; simp [item_slots_loop]
  | cons x xs ih =>
    intro s
    cases hq : (x.quantity == 0 && first) <;>
      simp [item_slots_loop, item_slot_segments, hq, is_currency_info_for,
        List.countP_append, ih]

/-- Container blocks whose sequence exceeds the target contribute no matching
CurrencyCrystalInfo segment. -/
theorem containers_loop_countP_currency_gt (actor now : Nat) (first : Bool) (k : Nat) :
    ∀ (inv : List (ContainerType × Container)) (seq0 : Nat), k < seq0 →
      (containers_loop actor now first seq0 inv).countP (is_currency_info_for k) = 0 := by
  intro inv
  induction inv with
  | nil => intro seq0 _; simp [containers_loop]
  | cons p rest ih =>
    intro seq0 hs
    obtain ⟨ct, cont⟩ := p
    have hne : (seq0 == k) = false := beq_eq_false_iff_ne.mpr (by omega)
    cases hct : (ct == ContainerType.Currency) <;>
      simp [containers_loop, hct, List.countP_append,
        currency_slots_loop_countP_ne actor now first seq0 k ct hne,
        item_slots_loop_countP_currency, container_info_segment, is_currency_info_for,
        ih (seq0 + 1) (by omega)]

/-- Full container loop: for a currency container, the matching
CurrencyCrystalInfo count equals the number of occupied slots on the first
update and the full slot count afterwards. -/
theorem containers_loop_countP_currency_at (actor now : Nat) (first : Bool) :
    ∀ (inv : List (ContainerType × Container)) (seq0 m : Nat) (ct : ContainerType)
      (cont : Container),
      inv.get? m = some (ct, cont) → (ct == ContainerType.Currency) = true →
      (containers_loop actor now first seq0 inv).countP (is_currency_info_for (seq0 + m))
        = if first then cont.slots.countP (fun it => it.quantity != 0)
          else cont.slots.length := by
  intro inv
  induction inv with
  | nil => intro seq0 m ct cont hm _; cases hm
  | cons p rest ih =>
    intro seq0 m ct cont hm hct
    obtain ⟨ct0, cont0⟩ := p
    cases m with
    | zero =>
      have hpair : ct0 = ct ∧ cont0 = cont := by simpa using hm
      obtain ⟨rfl, rfl⟩ := hpair
      have hmain := currency_slots_loop_countP_self actor now first seq0 ct0 cont0.slots
      rw [containers_loop, Nat.add_zero, List.countP_append,
        containers_loop_countP_currency_gt actor now first seq0 rest (seq0 + 1) (by omega)]
      simp [hct, hmain, container_info_segment, is_currency_info_for]
    | succ n =>
      have ihx := ih (seq0 + 1) n ct cont (by simpa using hm) hct
      rw [containers_loop, List.countP_append,
        show seq0 + (n + 1) = seq0 + 1 + n by omega, ihx]
      have hne : (seq0 == seq0 + 1 + n) = false := beq_eq_false_iff_ne.mpr (by omega)
      cases hct0 : (ct0 == ContainerType.Currency) <;>
        simp [hct0, currency_slots_loop_countP_ne actor now first seq0 (seq0 + 1 + n) ct0 hne,
          item_slots_loop_countP_currency, container_info_segment, is_currency_info_for]

/-- The trailing dummy ContainerInfo block emits no CurrencyCrystalInfo
segment. -/
theorem dummy_containers_loop_countP_currency (actor now k : Nat) :
    ∀ (cts : List ContainerType) (s : Nat),
      (dummy_containers_loop actor now s cts).countP (is_currency_info_for k) = 0 := by
  intro cts
  induction cts with
  | nil => intro s; simp [dummy_containers_loop]
  | cons ct rest ih =>
    intro s
    simp [dummy_containers_loop, container_info_segment, is_currency_info_for, ih]

/-- C7: in `send_inventory`, a zero-quantity slot of an item container yields
no UpdateItem segment when `first_update` is true and exactly one when it is
false; and a currency container's CurrencyCrystalInfo count equals its occupied
slot count on the first update (zero-quantity currencies suppressed) and its
full slot count afterwards — for every container and every slot index. -/
theorem send_inventory_zero_quantity_suppression (now : Nat) (c : ConnectionState)
    (first_update : Bool) (k : Nat) (ct : ContainerType) (cont : Container)
    (hk : c.player_data.inventory.containers.get? k = some (ct, cont)) :
    (∀ i item, (ct == ContainerType.Currency) = false → cont.slots.get? i = some item →
      item.quantity = 0 →
      (send_inventory now c first_update).countP (is_update_item_for k i)
        = if first_update then 0 else 1) ∧
    ((ct == ContainerType.Currency) = true →
      (send_inventory now c first_update).countP (is_currency_info_for k)
        = if first_update then cont.slots.countP (fun it => it.quantity != 0)
          else cont.slots.length) := by
  constructor
  · intro i item hct hi hq
    have hmain := containers_loop_countP_item_at c.player_data.actor_id now first_update i
      c.player_data.inventory.containers 0 k ct cont item hk hct hi hq
    rw [Nat.zero_add] at hmain
    simp only [send_inventory, List.countP_append, hmain,
      dummy_containers_loop_countP_item]
    simp
  · intro hct
    have hmain := containers_loop_countP_currency_at c.player_data.actor_id now first_update
      c.player_data.inventory.containers 0 k ct cont hk hct
    rw [Nat.zero_add] at hmain
    simp only [send_inventory, List.countP_append, hmain,
      dummy_containers_loop_countP_currency]
    simp

/-- C7 witness: the theorem applied at a one-slot item container (both values
of `first_update`) and at a one-slot currency container. -/
theorem send_inventory_zero_quantity_suppression_witness :
    c7.player_data.inventory.containers.get? 0 = some (.Bag 0, ⟨[⟨0, 0, 0, 0⟩]⟩) ∧
    c7c.player_data.inventory.containers.get? 0 = some (.Currency, ⟨[⟨1, 0, 0, 0⟩]⟩) ∧
    (send_inventory 0 c7 true).countP (is_update_item_for 0 0) = 0 ∧
    (send_inventory 0 c7 false).countP (is_update_item_for 0 0) = 1 ∧
    (send_inventory 0 c7c true).countP (is_currency_info_for 0) = 0 := by
  refine ⟨rfl, rfl, ?_, ?_, ?_⟩
  · have := (send_inventory_zero_quantity_suppression 0 c7 true 0 (.Bag 0)
      ⟨[⟨0, 0, 0, 0⟩]⟩ rfl).1 0 ⟨0, 0, 0, 0⟩ rfl rfl rfl
    simpa using this
  · have := (send_inventory_zero_quantity_suppression 0 c7 false 0 (.Bag 0)
      ⟨[⟨0, 0, 0, 0⟩]⟩ rfl).1 0 ⟨0, 0, 0, 0⟩ rfl rfl rfl
    simpa using this
  · have := (send_inventory_zero_quantity_suppression 0 c7c true 0 .Currency
      ⟨[⟨1, 0, 0, 0⟩]⟩ rfl).2 rfl
    simpa using this

end Kawari
